import Mathlib

/-!
Verification of the PDRINV counting-session workflow and reconciliation
engine against its specification.

The definitions below are a shallow embedding of the FastAPI/SQLAlchemy
source (`app/api/endpoints/counting.py`, `app/api/endpoints/results.py`,
`app/api/dependencies.py`, `app/models/*.py`, `app/schemas/*.py`).

Modelling conventions:
* Quantity columns (`Numeric`) and payloads are modelled as `ℤ`: stock
  counts are whole units, and every operation the endpoints apply to a
  quantity (store it, add a signed delta, compare with zero, test equality)
  acts identically on integers.
* Timestamps are `Nat` ticks; `server_default=func.now()` and
  `datetime.now()` become an explicit `now : Nat` argument.
* A SQLAlchemy session's table contents are lists; `query(...).first()` is
  `List.find?`, an in-place mutation of a fetched row is `replaceFirst`.
* The source commits the count mutation and the history append in two
  separate `db.commit()` calls.  The `historyOk : Bool` argument injects a
  failure of the second commit: when it is `false` the history append does
  not happen, the request errors, but everything committed before stays —
  exactly the behaviour of the Python code, where `db.commit()` inside
  `log_counting_history` runs after the count mutation was committed.
* `raise HTTPException(code, detail)` becomes `ApiError.http ⟨code, detail⟩`;
  any other uncaught Python exception (500) becomes `ApiError.internal`.
-/

namespace PDRINV

/-- Quantities: SQLAlchemy `Numeric` columns holding whole stock counts. -/
abbrev Qty := ℤ

/-- Mirrors `HTTPException(status_code, detail)` from FastAPI. -/
structure HTTPError where
  status_code : Nat
  detail : String
deriving Repr, DecidableEq

/-- Outcome of a request: an explicit `HTTPException` or any other uncaught
Python exception (surfaced as a 500). -/
inductive ApiError where
  | http (e : HTTPError)
  | internal (msg : String)
deriving Repr, DecidableEq

/-- Row of `app/models/counting.py`: `InventorySession`. -/
structure InventorySession where
  id : Nat
  nom_session : String
  depot : String
  started_at : Nat
  finished_at : Option Nat
  status : String
  created_by_user_id : Nat
  notes : Option String
deriving Repr, DecidableEq

/-- Row of `app/models/articles.py`: `Article`. -/
structure Article where
  id : Nat
  numero_article : String
  description_article : Option String
  code_emplacement : Option String
  quantite_en_stock : Option Qty
deriving Repr, DecidableEq

/-- Row of `app/models/users.py`: `AppUser` (password/activity fields that no
endpoint under verification reads are omitted). -/
structure AppUser where
  id : Nat
  username : String
  role : String
deriving Repr, DecidableEq

/-- Row of `app/models/counting.py`: `InventoryCount` (the versioned logical count). -/
structure InventoryCount where
  id : Nat
  session_id : Nat
  article_id : Nat
  round : Nat
  quantity_counted : Qty
  counted_by_user_id : Nat
  counted_at : Nat
  is_new : Bool
  notes : Option String
  version : Nat
deriving Repr, DecidableEq

/-- Row of `app/models/counting.py`: `CountingHistory` (append-only audit row). -/
structure CountingHistory where
  id : Nat
  session_id : Nat
  article_id : Nat
  round : Nat
  quantity_counted : Qty
  counted_by_user_id : Nat
  counted_at : Nat
  action : String
  previous_quantity : Option Qty
  count_id : Option Nat
  correction_reason : Option String
  notes : Option String
deriving Repr, DecidableEq

/-- Row of `app/models/results.py`: `InventoryResult`. -/
structure InventoryResult where
  id : Nat
  session_id : Nat
  article_id : Nat
  quantite_initiale : Option Qty
  quantite_finale : Option Qty
  ecart_final : Option Qty
  ajuste : Bool
deriving Repr, DecidableEq

/-- The persisted state: one list per table, plus the id sequences the
database assigns to freshly inserted rows. -/
structure DB where
  sessions : List InventorySession
  articles : List Article
  counts : List InventoryCount
  history : List CountingHistory
  results : List InventoryResult
  nextCountId : Nat
  nextHistoryId : Nat
  nextResultId : Nat
deriving Repr, DecidableEq

/-- Payload of `app/schemas/counting.py`: `InventorySessionUpdate`.  Every field is
optional; Pydantic's `dict(exclude_unset=True)` semantics are modelled by
`Option` (`none` = field absent from the payload).  `finished_at` is
`Option (Option Nat)` because a present field may carry an explicit null. -/
structure InventorySessionUpdate where
  nom_session : Option String
  depot : Option String
  status : Option String
  finished_at : Option (Option Nat)
  notes : Option String
deriving Repr, DecidableEq

/-- Payload of `app/schemas/counting.py`: `InventoryCountCreate`.

Modelled from the spec: the `article_location` field is referenced by
`create_count` (`count.article_location`) but the class in
`app/schemas/counting.py` as shipped does not declare it (the same schema
module also omits `InventoryCountUpdate` and `SuccessMessage`, which the
endpoint module imports); spec §4.3 says a location value may optionally
accompany the submission, so it is an optional string here. -/
structure InventoryCountCreate where
  session_id : Nat
  article_id : Nat
  round : Nat
  quantity_counted : Qty
  counted_by_user_id : Nat
  is_new : Bool
  notes : Option String
  article_location : Option String
deriving Repr, DecidableEq

/-- Modelled from the spec: `InventoryCountUpdate` is imported by
`app/api/endpoints/counting.py` but missing from `app/schemas/counting.py`;
its fields (`quantity_change`, `notes`) are exactly those the
`update_count_quantity` endpoint reads, per spec §4.3 `applyDelta`. -/
structure InventoryCountUpdate where
  quantity_change : Qty
  notes : Option String
deriving Repr, DecidableEq

/-- Request body `CountCorrection` of `PUT /counts/{id}/correct`. -/
structure CountCorrection where
  new_quantity : Qty
  correction_reason : String
  notes : Option String
deriving Repr, DecidableEq

/-- Payload of `app/schemas/results.py`: `InventoryResultCreate` — every quantity field
is caller-supplied. -/
structure InventoryResultCreate where
  session_id : Nat
  article_id : Nat
  quantite_initiale : Option Qty
  quantite_finale : Option Qty
  ecart_final : Option Qty
  ajuste : Bool
deriving Repr, DecidableEq

/-- The (session, article, round, counter) tuple that keys a logical count. -/
structure CountKey where
  session_id : Nat
  article_id : Nat
  round : Nat
  counted_by_user_id : Nat
deriving Repr, DecidableEq

def keyOf (p : InventoryCountCreate) : CountKey :=
  ⟨p.session_id, p.article_id, p.round, p.counted_by_user_id⟩

/-- The four-way filter of `create_count`:
`InventoryCount.session_id == count.session_id, …article_id…, …round…,
…counted_by_user_id…`. -/
def matchesKey (k : CountKey) (c : InventoryCount) : Bool :=
  c.session_id == k.session_id && c.article_id == k.article_id &&
  c.round == k.round && c.counted_by_user_id == k.counted_by_user_id

def countKey (c : InventoryCount) : CountKey :=
  ⟨c.session_id, c.article_id, c.round, c.counted_by_user_id⟩

/-- All rows for one logical-count tuple. -/
def countsFor (db : DB) (k : CountKey) : List InventoryCount :=
  db.counts.filter (matchesKey k)

/-- Lookup `db.query(InventorySession).filter(id == …).first()`. -/
def find_session (db : DB) (sid : Nat) : Option InventorySession :=
  db.sessions.find? (fun s => s.id == sid)

/-- Lookup `db.query(Article).filter(id == …).first()`. -/
def find_article (db : DB) (aid : Nat) : Option Article :=
  db.articles.find? (fun a => a.id == aid)

/-- Lookup `db.query(InventoryCount).filter(id == …).first()`. -/
def find_count (db : DB) (cid : Nat) : Option InventoryCount :=
  db.counts.find? (fun c => c.id == cid)

/-- In-place mutation of the row returned by `.first()`: replace the first
element satisfying the predicate. -/
def replaceFirst {α : Type} (l : List α) (p : α → Bool) (y : α) : List α :=
  match l with
  | [] => []
  | x :: rest => if p x then y :: rest else x :: replaceFirst rest p y

/-- Modelled from the spec: `update_count_quantity` reads
`current_user.is_admin`, an attribute `app/models/users.py` does not define;
spec §4.3 (`applyDelta`) says the privileged role passes the owner check, so
the privileged marker `role == "admin"` stands in for it. -/
def is_admin (u : AppUser) : Bool :=
  u.role == "admin"

/-- Python `s.startswith(pfx)`: prefix test on the character sequence. -/
def strStartsWith (s pfx : String) : Bool :=
  pfx.data.isPrefixOf s.data

/-- Python `s.split(sep)` for a one-character separator, on characters. -/
def splitChar (sep : Char) : List Char → List (List Char)
  | [] => [[]]
  | c :: rest =>
    match splitChar sep rest with
    | [] => [[c]]
    | h :: t => if c = sep then [] :: h :: t else (c :: h) :: t

/-- Python `s.split(sep)` producing strings. -/
def pySplit (s : String) (sep : Char) : List String :=
  (splitChar sep s.data).map (fun l => ⟨l⟩)

def pyToNatAux : List Char → Nat → Option Nat
  | [], acc => some acc
  | c :: cs, acc =>
    if c.isDigit then pyToNatAux cs (acc * 10 + (c.toNat - '0'.toNat)) else none

/-- Python `int(s)` on the strings a role suffix can be: a non-empty digit
string parses to its value, anything else raises `ValueError` (`none`). -/
def pyToNat (s : String) : Option Nat :=
  if s.data = [] then none else pyToNatAux s.data 0

/-- Parse `int(current_user.role.split('_')[1])` — the round number a
`compteur_N` role encodes, `none` when the second `_`-separated field is
not a number (Python would raise `ValueError`, a 500). -/
def roleRound (role : String) : Option Nat :=
  ((pySplit role '_').get? 1).bind pyToNat

/-- The round gate of `create_count` (lines 242–249): only roles starting
with `compteur_` are checked at all. -/
def round_gate (user : AppUser) (round : Nat) : Except ApiError Unit :=
  if strStartsWith user.role "compteur_" then
    match roleRound user.role with
    | none => .error (.internal "ValueError: invalid literal for int()")
    | some user_round =>
      if round ≠ user_round then
        .error (.http ⟨403, "Your role can only count in round " ++ toString user_round⟩)
      else .ok ()
  else .ok ()

/-- Helper `log_counting_history` (counting.py lines 446–474): append one
`CountingHistory` row in its own `db.commit()`.  `ok = false` injects a
failure of that separate commit: nothing is appended and the caller's
exception handler sees the failure, but whatever the caller committed
before stays committed. -/
def log_counting_history (ok : Bool) (db : DB) (now : Nat)
    (session_id article_id round : Nat) (quantity_counted : Qty)
    (counted_by_user_id : Nat) (action : String)
    (previous_quantity : Option Qty) (count_id : Option Nat)
    (correction_reason : Option String) (notes : Option String) :
    DB × Bool :=
  if ok then
    ({ db with
        history := db.history ++
          [⟨db.nextHistoryId, session_id, article_id, round, quantity_counted,
            counted_by_user_id, now, action, previous_quantity, count_id,
            correction_reason, notes⟩],
        nextHistoryId := db.nextHistoryId + 1 }, true)
  else (db, false)

/-- Endpoint `POST /counts/` — `create_count` (counting.py lines 210–321).
Returns the committed database together with the request outcome; on an
error raised before any commit the database is returned unchanged. -/
def create_count (db : DB) (user : AppUser) (p : InventoryCountCreate)
    (historyOk : Bool) (now : Nat) : DB × Except ApiError String :=
  match find_session db p.session_id with
  | none => (db, .error (.http ⟨404, "Session not found"⟩))
  | some sess =>
    if sess.status ≠ "open" then
      (db, .error (.http ⟨400, "Cannot add counts to closed session"⟩))
    else
      match find_article db p.article_id with
      | none => (db, .error (.http ⟨404, "Article not found"⟩))
      | some article =>
        match round_gate user p.round with
        | .error e => (db, .error e)
        | .ok _ =>
          match db.counts.find? (matchesKey (keyOf p)) with
          | some existing =>
            -- correction in place: overwrite quantity and notes, bump version
            let updated : InventoryCount :=
              { existing with
                  quantity_counted := p.quantity_counted,
                  notes := p.notes,
                  version := existing.version + 1 }
            let db1 := { db with
              counts := replaceFirst db.counts (matchesKey (keyOf p)) updated }
            match log_counting_history historyOk db1 now p.session_id p.article_id
                p.round p.quantity_counted p.counted_by_user_id "corrected"
                (some existing.quantity_counted) (some existing.id)
                (some "Recount/Correction by same user") p.notes with
            | (db2, true) => (db2, .ok "Count corrected successfully.")
            | (db2, false) => (db2, .error (.internal "history commit failed"))
          | none =>
            let newCount : InventoryCount :=
              ⟨db.nextCountId, p.session_id, p.article_id, p.round,
                p.quantity_counted, p.counted_by_user_id, now, p.is_new,
                p.notes, 1⟩
            let articles' :=
              match p.article_location with
              | some loc =>
                if loc ≠ "" ∧ article.code_emplacement ≠ some loc then
                  db.articles.map (fun a =>
                    if a.id == article.id then { a with code_emplacement := some loc } else a)
                else db.articles
              | none => db.articles
            let db1 := { db with
              counts := db.counts ++ [newCount],
              articles := articles',
              nextCountId := db.nextCountId + 1 }
            match log_counting_history historyOk db1 now p.session_id p.article_id
                p.round newCount.quantity_counted newCount.counted_by_user_id
                "created" none (some newCount.id) none newCount.notes with
            | (db2, true) => (db2, .ok "Count submitted successfully")
            | (db2, false) => (db2, .error (.internal "history commit failed"))

/-- The field application of `update_session` (counting.py lines 111–118):
`update_data = session_update.dict(exclude_unset=True)`, the
`finished_at` stamping rule, then `setattr` of every present field. -/
def apply_session_update (s : InventorySession) (u : InventorySessionUpdate)
    (now : Nat) : InventorySession :=
  let fin : Option (Option Nat) :=
    if (u.status = some "closed" ∨ u.status = some "finalized") ∧
        s.finished_at = none then
      some (some now)
    else u.finished_at
  { s with
    nom_session := u.nom_session.getD s.nom_session,
    depot := u.depot.getD s.depot,
    status := u.status.getD s.status,
    finished_at := fin.getD s.finished_at,
    notes := match u.notes with | none => s.notes | some v => some v }

/-- Endpoint `PUT /sessions/{id}` — `update_session` (counting.py lines 94–125),
admin caller assumed (the `require_admin` dependency). -/
def update_session (db : DB) (sid : Nat) (u : InventorySessionUpdate)
    (now : Nat) : DB × Except ApiError InventorySession :=
  match find_session db sid with
  | none => (db, .error (.http ⟨404, "Session not found"⟩))
  | some s =>
    let s' := apply_session_update s u now
    ({ db with sessions := db.sessions.map (fun t => if t.id == sid then s' else t) },
      .ok s')

/-- Endpoint `PATCH /counts/{id}/update_quantity` — `update_count_quantity`
(counting.py lines 480–536). -/
def update_count_quantity (db : DB) (user : AppUser) (count_id : Nat)
    (u : InventoryCountUpdate) (historyOk : Bool) (now : Nat) :
    DB × Except ApiError InventoryCount :=
  match find_count db count_id with
  | none => (db, .error (.http ⟨404, "Count not found"⟩))
  | some existing =>
    if existing.counted_by_user_id ≠ user.id ∧ ¬ is_admin user then
      (db, .error (.http ⟨403, "You are not authorized to update this count"⟩))
    else
      let old_quantity := existing.quantity_counted
      let new_quantity := old_quantity + u.quantity_change
      if new_quantity < 0 then
        (db, .error (.http ⟨400, "Quantity cannot be negative"⟩))
      else
        let updated : InventoryCount :=
          { existing with
              quantity_counted := new_quantity,
              notes := match u.notes with
                | some n => if n ≠ "" then some n else existing.notes
                | none => existing.notes,
              version := existing.version + 1 }
        let db1 := { db with
          counts := replaceFirst db.counts (fun c => c.id == count_id) updated }
        match log_counting_history historyOk db1 now existing.session_id
            existing.article_id existing.round new_quantity user.id
            "updated_by_delta" (some old_quantity) (some existing.id)
            (some ("Quantity updated by " ++ toString u.quantity_change)) u.notes with
        | (db2, true) => (db2, .ok updated)
        | (db2, false) => (db2, .error (.internal "history commit failed"))

/-- Endpoint `PUT /counts/{id}/correct` — `correct_count` (counting.py lines 715–768). -/
def correct_count (db : DB) (user : AppUser) (count_id : Nat)
    (corr : CountCorrection) (historyOk : Bool) (now : Nat) :
    DB × Except ApiError InventoryCount :=
  match find_count db count_id with
  | none => (db, .error (.http ⟨404, "Count not found"⟩))
  | some original =>
    if original.counted_by_user_id ≠ user.id ∧ user.role ≠ "admin" then
      (db, .error (.http ⟨403, "Can only correct your own counts"⟩))
    else
      let old_quantity := original.quantity_counted
      let updated : InventoryCount :=
        { original with
            quantity_counted := corr.new_quantity,
            notes := corr.notes,
            version := original.version + 1 }
      let db1 := { db with
        counts := replaceFirst db.counts (fun c => c.id == count_id) updated }
      match log_counting_history historyOk db1 now original.session_id
          original.article_id original.round corr.new_quantity user.id
          "corrected" (some old_quantity) (some count_id)
          (some corr.correction_reason) corr.notes with
      | (db2, true) => (db2, .ok updated)
      | (db2, false) => (db2, .error (.internal "history commit failed"))

/-- Endpoint `POST /results/` — `create_result` (results.py lines 24–68), including
the `require_admin` dependency. -/
def create_result (db : DB) (user : AppUser) (p : InventoryResultCreate) :
    DB × Except ApiError InventoryResult :=
  if user.role ≠ "admin" then
    (db, .error (.http ⟨403, "Admin access required"⟩))
  else
    match find_session db p.session_id with
    | none => (db, .error (.http ⟨404, "Session not found"⟩))
    | some _ =>
      match find_article db p.article_id with
      | none => (db, .error (.http ⟨404, "Article not found"⟩))
      | some _ =>
        match db.results.find? (fun r =>
            r.session_id == p.session_id && r.article_id == p.article_id) with
        | some _ =>
          (db, .error (.http ⟨400, "Result already exists for this article in this session"⟩))
        | none =>
          let r : InventoryResult :=
            ⟨db.nextResultId, p.session_id, p.article_id,
              p.quantite_initiale, p.quantite_finale, p.ecart_final, p.ajuste⟩
          ({ db with results := db.results ++ [r], nextResultId := db.nextResultId + 1 },
            .ok r)

/-- One cell of a SQLAlchemy result row, as the Python loop sees it. -/
inductive PyVal where
  | vCount (c : InventoryCount)
  | vStr (s : Option String)
  | vBool (b : Bool)
deriving Repr, DecidableEq

/-- One row of the counts-with-article-detail query: the five selected
columns — the `InventoryCount` entity, three labelled `Article` columns,
and the boolean expression `InventoryCount.article_id == Article.id`,
which line 171 (resp. 398) passes as a *selected column*, not a join. -/
def with_counts_row (c : InventoryCount) (a : Article) : List PyVal :=
  [.vCount c, .vStr (some a.numero_article), .vStr a.description_article,
   .vStr a.code_emplacement, .vBool (c.article_id == a.id)]

/-- Rows of the `get_session_with_counts` query: with no join condition the
two tables form a cartesian product, filtered on the count's session only. -/
def session_with_counts_rows (db : DB) (sid : Nat) : List (List PyVal) :=
  (db.counts.filter (fun c => c.session_id == sid)).flatMap
    (fun c => db.articles.map (fun a => with_counts_row c a))

/-- Rows of the `get_counts_by_session_and_round` query (same shape,
session and round filters). -/
def counts_by_round_rows (db : DB) (sid rnd : Nat) : List (List PyVal) :=
  (db.counts.filter (fun c => c.session_id == sid && c.round == rnd)).flatMap
    (fun c => db.articles.map (fun a => with_counts_row c a))

/-- The per-row data the loop body builds on success. -/
structure CountWithArticle where
  count : InventoryCount
  numero : Option String
  description : Option String
  location : Option String
deriving Repr, DecidableEq

/-- Loop header `for count, numero, description, location in rows:` — Python tuple
unpacking: a row of any length other than 4 raises `ValueError`. -/
def unpack4 (row : List PyVal) : Except ApiError CountWithArticle :=
  match row with
  | [.vCount c, .vStr n, .vStr d, .vStr l] => .ok ⟨c, n, d, l⟩
  | _ => .error (.internal "ValueError: too many values to unpack")

/-- The result-transforming loop: unpack each row in order, stopping at the
first row that fails to unpack (the raised `ValueError` aborts the request). -/
def unpack_rows : List (List PyVal) → Except ApiError (List CountWithArticle)
  | [] => .ok []
  | row :: rest =>
    match unpack4 row with
    | .error e => .error e
    | .ok x =>
      match unpack_rows rest with
      | .error e => .error e
      | .ok xs => .ok (x :: xs)

/-- Endpoint `GET /sessions/{id}/with-counts` — `get_session_with_counts`
(counting.py lines 150–204); returns the transformed counts and the
`unique_articles` aggregate. -/
def get_session_with_counts (db : DB) (sid : Nat) :
    Except ApiError (List CountWithArticle × Nat) :=
  match find_session db sid with
  | none => .error (.http ⟨404, "Session not found"⟩)
  | some _ =>
    match unpack_rows (session_with_counts_rows db sid) with
    | .error e => .error e
    | .ok counts_data =>
      .ok (counts_data,
        ((db.counts.filter (fun c => c.session_id == sid)).map
          (fun c => c.article_id)).dedup.length)

/-- Endpoint `GET /counts/session/{sid}/round/{rnd}` — `get_counts_by_session_and_round`
(counting.py lines 384–421); no session-existence check in the source. -/
def get_counts_by_session_and_round (db : DB) (sid rnd : Nat) :
    Except ApiError (List CountWithArticle) :=
  unpack_rows (counts_by_round_rows db sid rnd)

/-- A sequence of `submitCount` requests by one caller, stopping (`none`)
as soon as one fails; `some db'` means every call in the list succeeded. -/
def run_submits (user : AppUser) (now : Nat) :
    DB → List InventoryCountCreate → Option DB
  | db, [] => some db
  | db, p :: ps =>
    match create_count db user p true now with
    | (db', Except.ok _) => run_submits user now db' ps
    | (_, Except.error _) => none

/-! Concrete fixtures used by witnesses and counterexamples: one open
session, one catalogued article, an empty ledger. -/

def sessW : InventorySession := ⟨1, "Q1-2024", "D1", 0, none, "open", 1, none⟩

def artW : Article := ⟨10, "A-10", some "widget", some "L1", some 9⟩

def dbW : DB :=
  { sessions := [sessW], articles := [artW],
    counts := [], history := [], results := [],
    nextCountId := 100, nextHistoryId := 200, nextResultId := 300 }

/-- Same state with the session already closed (`finished_at` stamped). -/
def dbClosed : DB :=
  { dbW with sessions := [⟨1, "Q1-2024", "D1", 0, some 3, "closed", 1, none⟩] }

def uAdminW : AppUser := ⟨1, "OSSAD", "admin"⟩

def uC2W : AppUser := ⟨7, "bob", "compteur_2"⟩

def uViewerW : AppUser := ⟨8, "eve", "viewer"⟩

/-- A round-2 submission by user 7 for article 10 in session 1, quantity 10. -/
def pW : InventoryCountCreate := ⟨1, 10, 2, 10, 7, false, none, none⟩

/-- A recount of the same tuple with quantity 12 and a note. -/
def pW2 : InventoryCountCreate := ⟨1, 10, 2, 12, 7, false, some "recount", none⟩

/-- State `dbW` after the first successful submission of `pW`. -/
def dbWithCount : DB := (create_count dbW uC2W pW true 5).1

/-! ## List lemmas relating `.first()` (`find?`), `.all()`-style filters and
in-place row mutation (`replaceFirst`). -/

theorem find?_eq_none_of_filter_eq_nil {α : Type} (p : α → Bool) :
    ∀ l : List α, l.filter p = [] → l.find? p = none := by
  intro l
  induction l with
  | nil => intro _; rfl
  | cons x rest ih =>
    intro h
    rw [List.filter_cons] at h
    cases hx : p x with
    | true => rw [if_pos hx] at h; exact absurd h (by simp)
    | false =>
      rw [if_neg (by simp [hx])] at h
      rw [List.find?_cons, hx]
      exact ih h

theorem find?_eq_some_of_filter_cons {α : Type} (p : α → Bool) :
    ∀ (l : List α) (c : α) (cs : List α), l.filter p = c :: cs → l.find? p = some c := by
  intro l
  induction l with
  | nil => intro c cs h; simp at h
  | cons x rest ih =>
    intro c cs h
    rw [List.filter_cons] at h
    cases hx : p x with
    | true =>
      rw [if_pos hx] at h
      injection h with h1 _
      rw [List.find?_cons, hx, h1]
    | false =>
      rw [if_neg (by simp [hx])] at h
      rw [List.find?_cons, hx]
      exact ih _ _ h

theorem pred_of_filter_single {α : Type} (p : α → Bool) (l : List α) (c : α)
    (h : l.filter p = [c]) : p c = true := by
  have : c ∈ l.filter p := by rw [h]; exact List.mem_singleton_self c
  exact (List.mem_filter.mp this).2

theorem filter_replaceFirst_single {α : Type} (p : α → Bool) :
    ∀ (l : List α) (c y : α), l.filter p = [c] → p y = true →
      (replaceFirst l p y).filter p = [y] := by
  intro l
  induction l with
  | nil => intro c y h _; simp at h
  | cons x rest ih =>
    intro c y h hy
    rw [List.filter_cons] at h
    cases hx : p x with
    | true =>
      rw [if_pos hx] at h
      injection h with _ h2
      simp [replaceFirst, hx, List.filter_cons, hy, h2]
    | false =>
      rw [if_neg (by simp [hx])] at h
      simp [replaceFirst, hx, List.filter_cons, ih _ _ h hy]

theorem find?_replaceFirst_of_found {α : Type} (p : α → Bool) :
    ∀ (l : List α) (c y : α), l.find? p = some c → p y = true →
      (replaceFirst l p y).find? p = some y := by
  intro l
  induction l with
  | nil => intro c y h _; simp at h
  | cons x rest ih =>
    intro c y h hy
    by_cases hx : p x
    · simp [replaceFirst, hx, List.find?_cons, hy]
    · rw [List.find?_cons_of_neg _ (by simp [hx])] at h
      simp [replaceFirst, hx, List.find?_cons, ih _ _ h hy]

theorem find?_map_ite {α : Type} (q : α → Bool) :
    ∀ (l : List α) (s s' : α), l.find? q = some s → q s' = true →
      (l.map fun t => if q t then s' else t).find? q = some s' := by
  intro l
  induction l with
  | nil => intro s s' h _; simp at h
  | cons x rest ih =>
    intro s s' h hy
    by_cases hx : q x
    · simp [List.map_cons, hx, List.find?_cons, hy]
    · rw [List.find?_cons_of_neg _ (by simp [hx])] at h
      simp only [List.map_cons, if_neg (by simp [hx] : ¬ q x = true)]
      rw [List.find?_cons_of_neg _ (by simp [hx])]
      exact ih _ _ h hy

/-! ## Lemmas about the five-column rows and the four-variable unpack. -/

theorem unpack4_with_counts_row (c : InventoryCount) (a : Article) :
    unpack4 (with_counts_row c a) =
      Except.error (.internal "ValueError: too many values to unpack") := rfl

theorem unpack_rows_error_of_mem :
    ∀ (rows : List (List PyVal)) (r : List PyVal), r ∈ rows →
      (∃ e, unpack4 r = Except.error e) →
      ∃ e', unpack_rows rows = Except.error e' := by
  intro rows
  induction rows with
  | nil => intro r hr _; simp at hr
  | cons r0 rest ih =>
    intro r hr ⟨e, he⟩
    rcases List.mem_cons.mp hr with h0 | hrest
    · subst h0
      exact ⟨e, by simp [unpack_rows, he]⟩
    · match h0 : unpack4 r0 with
      | .error e0 => exact ⟨e0, by simp [unpack_rows, h0]⟩
      | .ok x =>
        obtain ⟨e', he'⟩ := ih r hrest ⟨e, he⟩
        exact ⟨e', by simp [unpack_rows, h0, he']⟩

theorem mem_session_with_counts_rows (db : DB) (sid : Nat)
    (c : InventoryCount) (a : Article)
    (hc : c ∈ db.counts) (hcs : c.session_id = sid) (ha : a ∈ db.articles) :
    with_counts_row c a ∈ session_with_counts_rows db sid := by
  unfold session_with_counts_rows
  refine List.mem_flatMap.mpr ⟨c, ?_, ?_⟩
  · exact List.mem_filter.mpr ⟨hc, by simp [hcs]⟩
  · exact List.mem_map_of_mem _ ha

theorem mem_counts_by_round_rows (db : DB) (sid rnd : Nat)
    (c : InventoryCount) (a : Article)
    (hc : c ∈ db.counts) (hcs : c.session_id = sid) (hcr : c.round = rnd)
    (ha : a ∈ db.articles) :
    with_counts_row c a ∈ counts_by_round_rows db sid rnd := by
  unfold counts_by_round_rows
  refine List.mem_flatMap.mpr ⟨c, ?_, ?_⟩
  · exact List.mem_filter.mpr ⟨hc, by simp [hcs, hcr]⟩
  · exact List.mem_map_of_mem _ ha

/-! ## Unfolding lemmas for `create_count` under the four gates. -/

theorem create_count_corrected_eq (db : DB) (u : AppUser) (p : InventoryCountCreate)
    (now : Nat) (sess : InventorySession) (article : Article) (c0 : InventoryCount)
    (hs : find_session db p.session_id = some sess)
    (hopen : sess.status = "open")
    (ha : find_article db p.article_id = some article)
    (hg : round_gate u p.round = Except.ok ())
    (hf : db.counts.find? (matchesKey (keyOf p)) = some c0) :
    create_count db u p true now =
      ({ db with
          counts := replaceFirst db.counts (matchesKey (keyOf p))
            ({ c0 with
                quantity_counted := p.quantity_counted, notes := p.notes,
                version := c0.version + 1 }),
          history := db.history ++
            [⟨db.nextHistoryId, p.session_id, p.article_id, p.round,
              p.quantity_counted, p.counted_by_user_id, now, "corrected",
              some c0.quantity_counted, some c0.id,
              some "Recount/Correction by same user", p.notes⟩],
          nextHistoryId := db.nextHistoryId + 1 },
        Except.ok "Count corrected successfully.") := by
  simp only [create_count, hs, hopen, ha, hg, hf, log_counting_history, if_true]
  simp

theorem create_count_created_eq (db : DB) (u : AppUser) (p : InventoryCountCreate)
    (now : Nat) (sess : InventorySession) (article : Article)
    (hs : find_session db p.session_id = some sess)
    (hopen : sess.status = "open")
    (ha : find_article db p.article_id = some article)
    (hg : round_gate u p.round = Except.ok ())
    (hf : db.counts.find? (matchesKey (keyOf p)) = none) :
    create_count db u p true now =
      ({ db with
          counts := db.counts ++
            [⟨db.nextCountId, p.session_id, p.article_id, p.round,
              p.quantity_counted, p.counted_by_user_id, now, p.is_new, p.notes, 1⟩],
          articles :=
            match p.article_location with
            | some loc =>
              if loc ≠ "" ∧ article.code_emplacement ≠ some loc then
                db.articles.map (fun a =>
                  if a.id == article.id then { a with code_emplacement := some loc } else a)
              else db.articles
            | none => db.articles,
          history := db.history ++
            [⟨db.nextHistoryId, p.session_id, p.article_id, p.round,
              p.quantity_counted, p.counted_by_user_id, now, "created", none,
              some db.nextCountId, none, p.notes⟩],
          nextCountId := db.nextCountId + 1,
          nextHistoryId := db.nextHistoryId + 1 },
        Except.ok "Count submitted successfully") := by
  simp only [create_count, hs, hopen, ha, hg, hf, log_counting_history, if_true]
  simp

/-- Inverting a successful `create_count`: the four gates passed, the
history commit went through, and the state moved by exactly the corrected
or the created shape. -/
theorem create_count_ok_inv {db : DB} {u : AppUser} {p : InventoryCountCreate}
    {historyOk : Bool} {now : Nat} {db' : DB} {m : String}
    (h : create_count db u p historyOk now = (db', Except.ok m)) :
    ∃ sess article, find_session db p.session_id = some sess ∧ sess.status = "open" ∧
      find_article db p.article_id = some article ∧
      round_gate u p.round = Except.ok () ∧ historyOk = true ∧
      ((∃ c0, db.counts.find? (matchesKey (keyOf p)) = some c0 ∧
          m = "Count corrected successfully." ∧
          db' = { db with
            counts := replaceFirst db.counts (matchesKey (keyOf p))
              ({ c0 with
                  quantity_counted := p.quantity_counted, notes := p.notes,
                  version := c0.version + 1 }),
            history := db.history ++
              [⟨db.nextHistoryId, p.session_id, p.article_id, p.round,
                p.quantity_counted, p.counted_by_user_id, now, "corrected",
                some c0.quantity_counted, some c0.id,
                some "Recount/Correction by same user", p.notes⟩],
            nextHistoryId := db.nextHistoryId + 1 }) ∨
       (db.counts.find? (matchesKey (keyOf p)) = none ∧
          m = "Count submitted successfully" ∧
          ∃ arts, db' = { db with
            counts := db.counts ++
              [⟨db.nextCountId, p.session_id, p.article_id, p.round,
                p.quantity_counted, p.counted_by_user_id, now, p.is_new, p.notes, 1⟩],
            articles := arts,
            history := db.history ++
              [⟨db.nextHistoryId, p.session_id, p.article_id, p.round,
                p.quantity_counted, p.counted_by_user_id, now, "created", none,
                some db.nextCountId, none, p.notes⟩],
            nextCountId := db.nextCountId + 1,
            nextHistoryId := db.nextHistoryId + 1 })) := by
  unfold create_count at h
  split at h
  · exact absurd h (by simp)
  rename_i sess hs
  split at h
  · exact absurd h (by simp)
  rename_i hopen
  split at h
  · exact absurd h (by simp)
  rename_i article ha
  split at h
  · exact absurd h (by simp)
  rename_i v hg
  cases v
  split at h
  · rename_i c0 hf
    dsimp only at h
    split at h
    · rename_i db2 hlog
      unfold log_counting_history at hlog
      by_cases hOk : historyOk = true
      · rw [if_pos hOk] at hlog
        injection hlog with hdb2 _
        injection h with hdb' hm
        injection hm with hm
        refine ⟨sess, article, hs, not_not.mp (by simpa using hopen), ha, hg, hOk,
          Or.inl ⟨c0, hf, hm.symm, ?_⟩⟩
        rw [← hdb', ← hdb2]
      · rw [if_neg hOk] at hlog
        injection hlog with _ hb
        exact absurd hb (by simp)
    · exact absurd h (by simp)
  · rename_i hf
    dsimp only at h
    split at h
    · rename_i db2 hlog
      unfold log_counting_history at hlog
      by_cases hOk : historyOk = true
      · rw [if_pos hOk] at hlog
        injection hlog with hdb2 _
        injection h with hdb' hm
        injection hm with hm
        exact ⟨sess, article, hs, not_not.mp (by simpa using hopen), ha, hg, hOk,
          Or.inr ⟨hf, hm.symm, _, (hdb2.trans hdb').symm⟩⟩
      · rw [if_neg hOk] at hlog
        injection hlog with _ hb
        exact absurd hb (by simp)
    · exact absurd h (by simp)

/-- Inverting a successful `update_count_quantity` (applyDelta). -/
theorem update_count_quantity_ok_inv {db : DB} {u : AppUser} {cid : Nat}
    {upd : InventoryCountUpdate} {historyOk : Bool} {now : Nat} {db' : DB}
    {c' : InventoryCount}
    (h : update_count_quantity db u cid upd historyOk now = (db', Except.ok c')) :
    ∃ c0, find_count db cid = some c0 ∧ historyOk = true ∧
      c' = { c0 with
              quantity_counted := c0.quantity_counted + upd.quantity_change,
              notes := match upd.notes with
                | some n => if n ≠ "" then some n else c0.notes
                | none => c0.notes,
              version := c0.version + 1 } ∧
      db' = { db with
        counts := replaceFirst db.counts (fun c => c.id == cid) c',
        history := db.history ++
          [⟨db.nextHistoryId, c0.session_id, c0.article_id, c0.round,
            c0.quantity_counted + upd.quantity_change, u.id, now, "updated_by_delta",
            some c0.quantity_counted, some c0.id,
            some ("Quantity updated by " ++ toString upd.quantity_change), upd.notes⟩],
        nextHistoryId := db.nextHistoryId + 1 } := by
  unfold update_count_quantity at h
  split at h
  · exact absurd h (by simp)
  rename_i c0 hfc
  split at h
  · exact absurd h (by simp)
  rename_i hauth
  dsimp only at h
  split at h
  · exact absurd h (by simp)
  rename_i hneg
  split at h
  · rename_i db2 hlog
    unfold log_counting_history at hlog
    by_cases hOk : historyOk = true
    · rw [if_pos hOk] at hlog
      injection hlog with hdb2 _
      injection h with hdb' hc'
      injection hc' with hc'
      refine ⟨c0, hfc, hOk, hc'.symm, ?_⟩
      rw [← hc']
      exact (hdb2.trans hdb').symm
    · rw [if_neg hOk] at hlog
      injection hlog with _ hb
      exact absurd hb (by simp)
  · exact absurd h (by simp)

/-- Inverting a successful `correct_count` (correctWithReason). -/
theorem correct_count_ok_inv {db : DB} {u : AppUser} {cid : Nat}
    {corr : CountCorrection} {historyOk : Bool} {now : Nat} {db' : DB}
    {c' : InventoryCount}
    (h : correct_count db u cid corr historyOk now = (db', Except.ok c')) :
    ∃ c0, find_count db cid = some c0 ∧ historyOk = true ∧
      c' = { c0 with
              quantity_counted := corr.new_quantity,
              notes := corr.notes,
              version := c0.version + 1 } ∧
      db' = { db with
        counts := replaceFirst db.counts (fun c => c.id == cid) c',
        history := db.history ++
          [⟨db.nextHistoryId, c0.session_id, c0.article_id, c0.round,
            corr.new_quantity, u.id, now, "corrected",
            some c0.quantity_counted, some cid,
            some corr.correction_reason, corr.notes⟩],
        nextHistoryId := db.nextHistoryId + 1 } := by
  unfold correct_count at h
  split at h
  · exact absurd h (by simp)
  rename_i c0 hfc
  split at h
  · exact absurd h (by simp)
  rename_i hauth
  dsimp only at h
  split at h
  · rename_i db2 hlog
    unfold log_counting_history at hlog
    by_cases hOk : historyOk = true
    · rw [if_pos hOk] at hlog
      injection hlog with hdb2 _
      injection h with hdb' hc'
      injection hc' with hc'
      refine ⟨c0, hfc, hOk, hc'.symm, ?_⟩
      rw [← hc']
      exact (hdb2.trans hdb').symm
    · rw [if_neg hOk] at hlog
      injection hlog with _ hb
      exact absurd hb (by simp)
  · exact absurd h (by simp)

/-! ## Lemmas for `create_result`. -/

theorem create_result_created_eq (db : DB) (u : AppUser) (p : InventoryResultCreate)
    (sess : InventorySession) (article : Article)
    (hadmin : u.role = "admin")
    (hs : find_session db p.session_id = some sess)
    (ha : find_article db p.article_id = some article)
    (hdup : db.results.find? (fun r =>
        r.session_id == p.session_id && r.article_id == p.article_id) = none) :
    create_result db u p =
      ({ db with
          results := db.results ++
            [⟨db.nextResultId, p.session_id, p.article_id,
              p.quantite_initiale, p.quantite_finale, p.ecart_final, p.ajuste⟩],
          nextResultId := db.nextResultId + 1 },
        Except.ok ⟨db.nextResultId, p.session_id, p.article_id,
          p.quantite_initiale, p.quantite_finale, p.ecart_final, p.ajuste⟩) := by
  simp only [create_result, hadmin, hs, ha, hdup]
  simp

theorem create_result_conflict_eq (db : DB) (u : AppUser) (p : InventoryResultCreate)
    (sess : InventorySession) (article : Article) (r0 : InventoryResult)
    (hadmin : u.role = "admin")
    (hs : find_session db p.session_id = some sess)
    (ha : find_article db p.article_id = some article)
    (hdup : db.results.find? (fun r =>
        r.session_id == p.session_id && r.article_id == p.article_id) = some r0) :
    create_result db u p =
      (db, Except.error (.http ⟨400, "Result already exists for this article in this session"⟩)) := by
  simp only [create_result, hadmin, hs, ha, hdup]
  simp

/-- Inverting a successful `create_result`: the stored row repeats the
payload verbatim. -/
theorem create_result_ok_inv {db : DB} {u : AppUser} {p : InventoryResultCreate}
    {db' : DB} {r : InventoryResult}
    (h : create_result db u p = (db', Except.ok r)) :
    r = ⟨db.nextResultId, p.session_id, p.article_id,
      p.quantite_initiale, p.quantite_finale, p.ecart_final, p.ajuste⟩ := by
  unfold create_result at h
  split at h
  · exact absurd h (by simp)
  split at h
  · exact absurd h (by simp)
  split at h
  · exact absurd h (by simp)
  split at h
  · exact absurd h (by simp)
  injection h with _ hr
  injection hr with hr
  exact hr.symm

/-! ## Lemmas for the round gate. -/

theorem round_gate_forbidden (u : AppUser) (n rnd : Nat)
    (hstart : strStartsWith u.role "compteur_" = true)
    (hr : roleRound u.role = some n) (hne : rnd ≠ n) :
    round_gate u rnd =
      Except.error (.http ⟨403, "Your role can only count in round " ++ toString n⟩) := by
  simp [round_gate, hstart, hr, hne]

theorem round_gate_ok_of_round_eq (u : AppUser) (n : Nat)
    (hr : roleRound u.role = some n) : round_gate u n = Except.ok () := by
  unfold round_gate
  cases hstart : strStartsWith u.role "compteur_" with
  | true => simp [hstart, hr]
  | false => simp [hstart]

theorem round_gate_ok_of_not_compteur (u : AppUser) (rnd : Nat)
    (hstart : strStartsWith u.role "compteur_" = false) :
    round_gate u rnd = Except.ok () := by
  simp [round_gate, hstart]

theorem round_gate_ok_admin (u : AppUser) (rnd : Nat)
    (hadmin : u.role = "admin") : round_gate u rnd = Except.ok () := by
  apply round_gate_ok_of_not_compteur
  rw [hadmin]
  rfl

/-! ## Claim theorems: session lifecycle (C4, C5). -/

/-- C4 (counterexample): the claim "`finished_at` is null while status is
`open` … and is never reset or changed by any later operation" is false:
`update_session` applies a caller-supplied `finished_at` verbatim, so one
update sets `finished_at = 5` on a session that stays `open`. -/
theorem finished_at_set_while_open_cex :
    ∃ s', (update_session dbW 1 ⟨none, none, none, some (some 5), none⟩ 9).2 =
        Except.ok s' ∧
      s'.status = "open" ∧ s'.finished_at = some 5 ∧
      (find_session dbW 1).map InventorySession.status = some "open" ∧
      (find_session dbW 1).map InventorySession.finished_at = some none :=
  ⟨⟨1, "Q1-2024", "D1", 0, some 5, "open", 1, none⟩, rfl, rfl, rfl, rfl, rfl⟩

/-- C4 (amended): provided the update payload does not itself carry a
`finished_at` field, `update_session` stamps `finished_at` with the current
time exactly on an update that sets status to `closed` or `finalized` while
`finished_at` is still null, and never changes it otherwise — in particular
re-closing does not change it. -/
theorem finished_at_stamped_once (db : DB) (sid : Nat)
    (u : InventorySessionUpdate) (now : Nat) (s : InventorySession)
    (hfind : find_session db sid = some s)
    (hnofin : u.finished_at = none) :
    (update_session db sid u now).2 = Except.ok (apply_session_update s u now) ∧
    find_session (update_session db sid u now).1 sid =
      some (apply_session_update s u now) ∧
    (apply_session_update s u now).finished_at =
      (if (u.status = some "closed" ∨ u.status = some "finalized") ∧
          s.finished_at = none
       then some now else s.finished_at) := by
  have hfind' : db.sessions.find? (fun t => t.id == sid) = some s := hfind
  have hq := List.find?_some hfind'
  refine ⟨?_, ?_, ?_⟩
  · simp [update_session, hfind]
  · have hq' : (fun t : InventorySession => t.id == sid)
        (apply_session_update s u now) = true := hq
    simp only [update_session, hfind]
    exact find?_map_ite _ db.sessions s _ hfind hq'
  · simp only [apply_session_update, hnofin]
    by_cases hc : (u.status = some "closed" ∨ u.status = some "finalized") ∧
        s.finished_at = none
    · rw [if_pos hc, if_pos hc]; rfl
    · rw [if_neg hc, if_neg hc]; rfl

/-- C4 (witness): closing the open fixture session stamps `finished_at := 9`. -/
theorem finished_at_stamped_once_witness :
    (update_session dbW 1 ⟨none, none, some "closed", none, none⟩ 9).2 =
      Except.ok (apply_session_update sessW ⟨none, none, some "closed", none, none⟩ 9) ∧
    find_session (update_session dbW 1 ⟨none, none, some "closed", none, none⟩ 9).1 1 =
      some (apply_session_update sessW ⟨none, none, some "closed", none, none⟩ 9) ∧
    (apply_session_update sessW ⟨none, none, some "closed", none, none⟩ 9).finished_at =
      (if ((some "closed" : Option String) = some "closed" ∨
            (some "closed" : Option String) = some "finalized") ∧
          sessW.finished_at = none
       then some 9 else sessW.finished_at) :=
  finished_at_stamped_once dbW 1 ⟨none, none, some "closed", none, none⟩ 9 sessW rfl rfl

/-- C5 (counterexample): the status machine is not forward-only — updating
the closed fixture session with status `open` moves it back to `open`. -/
theorem closed_session_reopened_cex :
    ∃ s', (update_session dbClosed 1 ⟨none, none, some "open", none, none⟩ 9).2 =
        Except.ok s' ∧
      s'.status = "open" ∧
      (find_session dbClosed 1).map InventorySession.status = some "closed" :=
  ⟨⟨1, "Q1-2024", "D1", 0, some 3, "open", 1, none⟩, rfl, rfl, rfl⟩

/-- C5 (amended): `update_session` performs no status validation at all — it
stores whatever status string the payload carries, including transitions out
of `closed`/`finalized` and values outside {open, closed, finalized}. -/
theorem update_session_status_unvalidated (db : DB) (sid : Nat)
    (u : InventorySessionUpdate) (now : Nat) (s : InventorySession) (st : String)
    (hfind : find_session db sid = some s)
    (hst : u.status = some st) :
    (update_session db sid u now).2 = Except.ok (apply_session_update s u now) ∧
    (apply_session_update s u now).status = st ∧
    find_session (update_session db sid u now).1 sid =
      some (apply_session_update s u now) := by
  have hfind' : db.sessions.find? (fun t => t.id == sid) = some s := hfind
  have hq := List.find?_some hfind'
  refine ⟨?_, ?_, ?_⟩
  · simp [update_session, hfind]
  · simp [apply_session_update, hst]
  · have hq' : (fun t : InventorySession => t.id == sid)
        (apply_session_update s u now) = true := hq
    simp only [update_session, hfind]
    exact find?_map_ite _ db.sessions s _ hfind hq'

/-- C5 (witness): the closed fixture session accepts status `open` again. -/
theorem update_session_status_unvalidated_witness :
    (update_session dbClosed 1 ⟨none, none, some "open", none, none⟩ 9).2 =
      Except.ok (apply_session_update ⟨1, "Q1-2024", "D1", 0, some 3, "closed", 1, none⟩
        ⟨none, none, some "open", none, none⟩ 9) ∧
    (apply_session_update ⟨1, "Q1-2024", "D1", 0, some 3, "closed", 1, none⟩
        ⟨none, none, some "open", none, none⟩ 9).status = "open" ∧
    find_session (update_session dbClosed 1 ⟨none, none, some "open", none, none⟩ 9).1 1 =
      some (apply_session_update ⟨1, "Q1-2024", "D1", 0, some 3, "closed", 1, none⟩
        ⟨none, none, some "open", none, none⟩ 9) :=
  update_session_status_unvalidated dbClosed 1 ⟨none, none, some "open", none, none⟩ 9
    ⟨1, "Q1-2024", "D1", 0, some 3, "closed", 1, none⟩ "open" rfl rfl

/-! ## Claim theorems: reconciliation (C7, C8). -/

/-- C7: reconciliation is write-once — with session and article resolving,
the first `create_result` for a (session, article) pair appends exactly that
Result, and any later call for the same pair fails with the duplicate
(`Conflict`) error and returns the database unchanged, leaving every field
of the existing Result intact. -/
theorem reconcile_write_once :
    (∀ (db : DB) (u : AppUser) (p : InventoryResultCreate) sess article,
      u.role = "admin" →
      find_session db p.session_id = some sess →
      find_article db p.article_id = some article →
      db.results.find? (fun r =>
        r.session_id == p.session_id && r.article_id == p.article_id) = none →
      create_result db u p =
        ({ db with
            results := db.results ++
              [⟨db.nextResultId, p.session_id, p.article_id,
                p.quantite_initiale, p.quantite_finale, p.ecart_final, p.ajuste⟩],
            nextResultId := db.nextResultId + 1 },
          Except.ok ⟨db.nextResultId, p.session_id, p.article_id,
            p.quantite_initiale, p.quantite_finale, p.ecart_final, p.ajuste⟩)) ∧
    (∀ (db : DB) (u : AppUser) (p : InventoryResultCreate) sess article r0,
      u.role = "admin" →
      find_session db p.session_id = some sess →
      find_article db p.article_id = some article →
      db.results.find? (fun r =>
        r.session_id == p.session_id && r.article_id == p.article_id) = some r0 →
      create_result db u p =
        (db, Except.error (.http ⟨400,
          "Result already exists for this article in this session"⟩))) :=
  ⟨fun db u p sess article h1 h2 h3 h4 =>
      create_result_created_eq db u p sess article h1 h2 h3 h4,
    fun db u p sess article r0 h1 h2 h3 h4 =>
      create_result_conflict_eq db u p sess article r0 h1 h2 h3 h4⟩

/-- The admin-supplied reconciliation payload used by the fixtures. -/
def pR8 : InventoryResultCreate := ⟨1, 10, some 7, some 12, some 100, false⟩

/-- State `dbW` after one successful `create_result` for (session 1, article 10). -/
def dbWithResult : DB := (create_result dbW uAdminW pR8).1

/-- C7 (witness): the first call stores the Result, the second call for the
same pair is rejected and changes nothing. -/
theorem reconcile_write_once_witness :
    (create_result dbW uAdminW pR8).2 =
      Except.ok ⟨300, 1, 10, some 7, some 12, some 100, false⟩ ∧
    create_result dbWithResult uAdminW pR8 =
      (dbWithResult, Except.error (.http ⟨400,
        "Result already exists for this article in this session"⟩)) :=
  ⟨congrArg Prod.snd (reconcile_write_once.1 dbW uAdminW pR8 sessW artW rfl rfl rfl rfl),
    reconcile_write_once.2 dbWithResult uAdminW pR8 sessW artW
      ⟨300, 1, 10, some 7, some 12, some 100, false⟩ rfl rfl rfl rfl⟩

/-- C8 (counterexample): the stored Result's variance is NOT final minus
baseline and its baseline is NOT read from the Article Reference —
`create_result` persists whatever the caller sent.  Here the article's
reference quantity is 9, yet the stored Result has `quantite_initiale = 7`
and `ecart_final = 100 ≠ 12 − 9`. -/
theorem result_variance_not_computed_cex :
    ∃ db' r, create_result dbW uAdminW ⟨1, 10, some 7, some 12, some 100, false⟩ =
        (db', Except.ok r) ∧
      find_article dbW 10 = some artW ∧ artW.quantite_en_stock = some 9 ∧
      r.quantite_finale = some 12 ∧ r.quantite_initiale = some 7 ∧
      r.ecart_final = some 100 ∧
      r.quantite_initiale ≠ some (9 : Qty) ∧
      r.ecart_final ≠ some ((12 : Qty) - 9) ∧
      r.ecart_final ≠ some ((12 : Qty) - 7) := by
  refine ⟨_, ⟨300, 1, 10, some 7, some 12, some 100, false⟩,
    rfl, rfl, rfl, rfl, rfl, rfl, by decide, by norm_num, by norm_num⟩

/-- C8 (amended): `create_result` stores the caller-supplied baseline, final
quantity and variance verbatim; it neither computes `ecart_final` from the
other two fields nor reads the article's `quantite_en_stock`.  The spec's
`variance = final − baseline` with a frozen reference baseline holds only
if the caller sends values with that relationship. -/
theorem create_result_stores_payload_verbatim :
    ∀ (db : DB) (u : AppUser) (p : InventoryResultCreate) (db' : DB)
      (r : InventoryResult),
      create_result db u p = (db', Except.ok r) →
      r.session_id = p.session_id ∧ r.article_id = p.article_id ∧
      r.quantite_initiale = p.quantite_initiale ∧
      r.quantite_finale = p.quantite_finale ∧
      r.ecart_final = p.ecart_final ∧ r.ajuste = p.ajuste := by
  intro db u p db' r h
  have hr := create_result_ok_inv h
  subst hr
  exact ⟨rfl, rfl, rfl, rfl, rfl, rfl⟩

/-- C8 (witness): the fixture call stores the payload fields unchanged. -/
theorem create_result_stores_payload_verbatim_witness :
    (⟨300, 1, 10, some 7, some 12, some 100, false⟩ : InventoryResult).session_id =
        pR8.session_id ∧
      (⟨300, 1, 10, some 7, some 12, some 100, false⟩ : InventoryResult).article_id =
        pR8.article_id ∧
      (⟨300, 1, 10, some 7, some 12, some 100, false⟩ : InventoryResult).quantite_initiale =
        pR8.quantite_initiale ∧
      (⟨300, 1, 10, some 7, some 12, some 100, false⟩ : InventoryResult).quantite_finale =
        pR8.quantite_finale ∧
      (⟨300, 1, 10, some 7, some 12, some 100, false⟩ : InventoryResult).ecart_final =
        pR8.ecart_final ∧
      (⟨300, 1, 10, some 7, some 12, some 100, false⟩ : InventoryResult).ajuste =
        pR8.ajuste :=
  create_result_stores_payload_verbatim dbW uAdminW pR8 dbWithResult
    ⟨300, 1, 10, some 7, some 12, some 100, false⟩ rfl

/-! ## Claim theorems: round gating (C6, C9) and atomicity (C3). -/

/-- C6: with an open session and an existing article, a caller whose role
is `compteur_N` is rejected with 403 — before any state change — when
submitting to a round other than N, succeeds for round N, and an admin
succeeds for every round. -/
theorem submitCount_round_gating :
    ∀ (db : DB) (u : AppUser) (p : InventoryCountCreate) (now : Nat)
      (sess : InventorySession) (article : Article),
      find_session db p.session_id = some sess → sess.status = "open" →
      find_article db p.article_id = some article →
      ((∀ n, strStartsWith u.role "compteur_" = true → roleRound u.role = some n →
          p.round ≠ n →
          create_count db u p true now =
            (db, Except.error (.http ⟨403,
              "Your role can only count in round " ++ toString n⟩))) ∧
       (∀ n, roleRound u.role = some n → p.round = n →
          ∃ db' m, create_count db u p true now = (db', Except.ok m)) ∧
       (u.role = "admin" →
          ∃ db' m, create_count db u p true now = (db', Except.ok m))) := by
  intro db u p now sess article hs hopen ha
  have success : round_gate u p.round = Except.ok () →
      ∃ db' m, create_count db u p true now = (db', Except.ok m) := by
    intro hg
    cases hf : db.counts.find? (matchesKey (keyOf p)) with
    | some c0 =>
      exact ⟨_, _, create_count_corrected_eq db u p now sess article c0 hs hopen ha hg hf⟩
    | none =>
      exact ⟨_, _, create_count_created_eq db u p now sess article hs hopen ha hg hf⟩
  refine ⟨?_, ?_, ?_⟩
  · intro n hstart hr hne
    have hg := round_gate_forbidden u n p.round hstart hr hne
    simp [create_count, hs, hopen, ha, hg]
  · intro n hr hround
    refine success ?_
    rw [hround]
    exact round_gate_ok_of_round_eq u n hr
  · intro hadmin
    exact success (round_gate_ok_admin u p.round hadmin)

/-- C6 (witness): the round-2 counter is rejected for round 1, accepted for
round 2, and the admin is accepted for round 3. -/
theorem submitCount_round_gating_witness :
    create_count dbW uC2W ⟨1, 10, 1, 10, 7, false, none, none⟩ true 5 =
      (dbW, Except.error (.http ⟨403,
        "Your role can only count in round " ++ toString 2⟩)) ∧
    (∃ db' m, create_count dbW uC2W pW true 5 = (db', Except.ok m)) ∧
    (∃ db' m, create_count dbW uAdminW ⟨1, 10, 3, 10, 1, false, none, none⟩ true 5 =
      (db', Except.ok m)) :=
  ⟨(submitCount_round_gating dbW uC2W ⟨1, 10, 1, 10, 7, false, none, none⟩ 5
      sessW artW rfl rfl rfl).1 2 rfl rfl (by decide),
   (submitCount_round_gating dbW uC2W pW 5 sessW artW rfl rfl rfl).2.1 2 rfl rfl,
   (submitCount_round_gating dbW uAdminW ⟨1, 10, 3, 10, 1, false, none, none⟩ 5
      sessW artW rfl rfl rfl).2.2 rfl⟩

/-- C9: a caller whose role is neither `admin` nor of the `compteur_N` shape
(e.g. the read-only `viewer`) hits no round check at all — `create_count`
succeeds for ANY round of an open session and mutates the ledger (one
history row is appended). -/
theorem submitCount_no_gate_for_unbound_roles :
    ∀ (db : DB) (u : AppUser) (p : InventoryCountCreate) (now : Nat)
      (sess : InventorySession) (article : Article),
      find_session db p.session_id = some sess → sess.status = "open" →
      find_article db p.article_id = some article →
      u.role ≠ "admin" → strStartsWith u.role "compteur_" = false →
      ∃ db' m, create_count db u p true now = (db', Except.ok m) ∧
        db'.history.length = db.history.length + 1 := by
  intro db u p now sess article hs hopen ha _ hstart
  have hg := round_gate_ok_of_not_compteur u p.round hstart
  cases hf : db.counts.find? (matchesKey (keyOf p)) with
  | some c0 =>
    refine ⟨_, _, create_count_corrected_eq db u p now sess article c0 hs hopen ha hg hf, ?_⟩
    simp
  | none =>
    refine ⟨_, _, create_count_created_eq db u p now sess article hs hopen ha hg hf, ?_⟩
    simp

/-- C9 (witness): the viewer submits to round 3 of the open fixture session
and the submission is accepted and recorded. -/
theorem submitCount_no_gate_for_unbound_roles_witness :
    ∃ db' m, create_count dbW uViewerW ⟨1, 10, 3, 4, 8, false, none, none⟩ true 5 =
        (db', Except.ok m) ∧
      db'.history.length = dbW.history.length + 1 :=
  submitCount_no_gate_for_unbound_roles dbW uViewerW
    ⟨1, 10, 3, 4, 8, false, none, none⟩ 5 sessW artW rfl rfl rfl (by decide) rfl

/-- C3: the count mutation and its history entry do NOT commit atomically.
`create_count` commits the count insert first and `log_counting_history`
commits separately; when that second commit fails the request errors, yet
the new Count row has already persisted with no audit entry — the exact
partial state the spec calls a correctness violation. -/
theorem count_mutation_survives_history_failure :
    (create_count dbW uC2W pW false 5).2 =
      Except.error (.internal "history commit failed") ∧
    (create_count dbW uC2W pW false 5).1.counts =
      [⟨100, 1, 10, 2, 10, 7, 5, false, none, 1⟩] ∧
    (create_count dbW uC2W pW false 5).1.history = [] ∧
    dbW.counts = [] ∧ dbW.history = [] :=
  ⟨rfl, rfl, rfl, rfl, rfl⟩

/-! ## Claim theorem: the five-column rows vs four-variable unpack (C10). -/

/-- C10: both counts-with-article-detail reads select five columns (the
join condition is passed as a selected boolean column) while their loops
unpack four variables, so each endpoint raises (`ValueError` → 500) as soon
as its query returns at least one row — i.e. whenever a matching Count and
at least one Article exist — and succeeds only on an empty result set. -/
theorem with_counts_reads_fail_on_any_row :
    (∀ (db : DB) (sid : Nat) (sess : InventorySession) (c : InventoryCount)
        (a : Article),
      find_session db sid = some sess → c ∈ db.counts → c.session_id = sid →
      a ∈ db.articles →
      ∃ e, get_session_with_counts db sid = Except.error e) ∧
    (∀ (db : DB) (sid : Nat) (sess : InventorySession),
      find_session db sid = some sess →
      db.counts.filter (fun c => c.session_id == sid) = [] →
      get_session_with_counts db sid = Except.ok ([], 0)) ∧
    (∀ (db : DB) (sid rnd : Nat) (c : InventoryCount) (a : Article),
      c ∈ db.counts → c.session_id = sid → c.round = rnd → a ∈ db.articles →
      ∃ e, get_counts_by_session_and_round db sid rnd = Except.error e) ∧
    (∀ (db : DB) (sid rnd : Nat),
      db.counts.filter (fun c => c.session_id == sid && c.round == rnd) = [] →
      get_counts_by_session_and_round db sid rnd = Except.ok []) := by
  refine ⟨?_, ?_, ?_, ?_⟩
  · intro db sid sess c a hs hc hcs ha
    obtain ⟨e', he'⟩ := unpack_rows_error_of_mem _ _
      (mem_session_with_counts_rows db sid c a hc hcs ha)
      ⟨_, unpack4_with_counts_row c a⟩
    exact ⟨e', by simp [get_session_with_counts, hs, he']⟩
  · intro db sid sess hs hfilter
    simp [get_session_with_counts, hs, session_with_counts_rows, hfilter,
      unpack_rows]
  · intro db sid rnd c a hc hcs hcr ha
    obtain ⟨e', he'⟩ := unpack_rows_error_of_mem _ _
      (mem_counts_by_round_rows db sid rnd c a hc hcs hcr ha)
      ⟨_, unpack4_with_counts_row c a⟩
    exact ⟨e', by simp [get_counts_by_session_and_round, he']⟩
  · intro db sid rnd hfilter
    simp [get_counts_by_session_and_round, counts_by_round_rows, hfilter,
      unpack_rows]

/-- C10 (witness): with one recorded count the session read raises; with no
counts it succeeds with empty data; same for the per-round read. -/
theorem with_counts_reads_fail_on_any_row_witness :
    (∃ e, get_session_with_counts dbWithCount 1 = Except.error e) ∧
    get_session_with_counts dbW 1 = Except.ok ([], 0) ∧
    (∃ e, get_counts_by_session_and_round dbWithCount 1 2 = Except.error e) ∧
    get_counts_by_session_and_round dbW 1 2 = Except.ok [] :=
  ⟨with_counts_reads_fail_on_any_row.1 dbWithCount 1 sessW
      ⟨100, 1, 10, 2, 10, 7, 5, false, none, 1⟩ artW rfl (by decide) rfl (by decide),
   with_counts_reads_fail_on_any_row.2.1 dbW 1 sessW rfl rfl,
   with_counts_reads_fail_on_any_row.2.2.1 dbWithCount 1 2
      ⟨100, 1, 10, 2, 10, 7, 5, false, none, 1⟩ artW (by decide) rfl rfl (by decide),
   with_counts_reads_fail_on_any_row.2.2.2 dbW 1 2 rfl⟩

/-! ## Claim theorem: one audit entry per mutation (C2). -/

/-- C2: every successful `create_count`, `update_count_quantity`
(applyDelta) or `correct_count` appends exactly one new `CountingHistory`
row; on the correcting and delta paths that row's `previous_quantity` is
the Count's quantity immediately before the operation and its
`quantity_counted` is the Count's quantity immediately after. -/
theorem ledger_audit_entries :
    (∀ (db : DB) (u : AppUser) (p : InventoryCountCreate) (now : Nat)
        (db' : DB) (m : String),
      create_count db u p true now = (db', Except.ok m) →
      ∃ e, db'.history = db.history ++ [e] ∧
        ((db.counts.find? (matchesKey (keyOf p)) = none ∧ e.action = "created" ∧
          e.previous_quantity = none ∧ e.quantity_counted = p.quantity_counted) ∨
         (∃ c0, db.counts.find? (matchesKey (keyOf p)) = some c0 ∧
           e.action = "corrected" ∧
           e.previous_quantity = some c0.quantity_counted ∧
           e.quantity_counted = p.quantity_counted ∧
           db'.counts.find? (matchesKey (keyOf p)) =
             some ({ c0 with
                      quantity_counted := p.quantity_counted,
                      notes := p.notes,
                      version := c0.version + 1 })))) ∧
    (∀ (db : DB) (u : AppUser) (cid : Nat) (upd : InventoryCountUpdate)
        (now : Nat) (db' : DB) (c' : InventoryCount),
      update_count_quantity db u cid upd true now = (db', Except.ok c') →
      ∃ e c0, find_count db cid = some c0 ∧ db'.history = db.history ++ [e] ∧
        e.action = "updated_by_delta" ∧
        e.previous_quantity = some c0.quantity_counted ∧
        e.quantity_counted = c0.quantity_counted + upd.quantity_change ∧
        c'.quantity_counted = c0.quantity_counted + upd.quantity_change ∧
        find_count db' cid = some c') ∧
    (∀ (db : DB) (u : AppUser) (cid : Nat) (corr : CountCorrection)
        (now : Nat) (db' : DB) (c' : InventoryCount),
      correct_count db u cid corr true now = (db', Except.ok c') →
      ∃ e c0, find_count db cid = some c0 ∧ db'.history = db.history ++ [e] ∧
        e.action = "corrected" ∧
        e.previous_quantity = some c0.quantity_counted ∧
        e.quantity_counted = corr.new_quantity ∧
        c'.quantity_counted = corr.new_quantity ∧
        find_count db' cid = some c') := by
  refine ⟨?_, ?_, ?_⟩
  · intro db u p now db' m h
    obtain ⟨sess, article, hs, hopen, ha, hg, -, hbranch⟩ := create_count_ok_inv h
    rcases hbranch with ⟨c0, hf, -, hdb'⟩ | ⟨hf, -, arts, hdb'⟩
    · subst hdb'
      refine ⟨_, rfl, Or.inr ⟨c0, hf, rfl, rfl, rfl, ?_⟩⟩
      have hy := List.find?_some hf
      exact find?_replaceFirst_of_found _ db.counts c0 _ hf hy
    · subst hdb'
      exact ⟨_, rfl, Or.inl ⟨hf, rfl, rfl, rfl⟩⟩
  · intro db u cid upd now db' c' h
    obtain ⟨c0, hfc, -, hc', hdb'⟩ := update_count_quantity_ok_inv h
    subst hdb'
    refine ⟨_, c0, hfc, rfl, rfl, rfl, rfl, ?_, ?_⟩
    · rw [hc']
    · subst hc'
      have hy := List.find?_some hfc
      exact find?_replaceFirst_of_found _ db.counts c0 _ hfc hy
  · intro db u cid corr now db' c' h
    obtain ⟨c0, hfc, -, hc', hdb'⟩ := correct_count_ok_inv h
    subst hdb'
    refine ⟨_, c0, hfc, rfl, rfl, rfl, rfl, ?_, ?_⟩
    · rw [hc']
    · subst hc'
      have hy := List.find?_some hfc
      exact find?_replaceFirst_of_found _ db.counts c0 _ hfc hy

/-- C2 (witness): the fixture submission, a +3 delta by the owner, and an
admin correction each append exactly one history row. -/
theorem ledger_audit_entries_witness :
    (∃ e, dbWithCount.history = dbW.history ++ [e]) ∧
    (∃ e, (update_count_quantity dbWithCount uC2W 100 ⟨3, none⟩ true 6).1.history =
      dbWithCount.history ++ [e]) ∧
    (∃ e, (correct_count dbWithCount uAdminW 100 ⟨20, "fix", some "n"⟩ true 7).1.history =
      dbWithCount.history ++ [e]) := by
  refine ⟨?_, ?_, ?_⟩
  · obtain ⟨e, he, -⟩ := ledger_audit_entries.1 dbW uC2W pW 5 dbWithCount
      "Count submitted successfully" rfl
    exact ⟨e, he⟩
  · obtain ⟨e, c0, -, he, -⟩ := ledger_audit_entries.2.1 dbWithCount uC2W 100 ⟨3, none⟩ 6
      ((update_count_quantity dbWithCount uC2W 100 ⟨3, none⟩ true 6).1)
      ⟨100, 1, 10, 2, 13, 7, 5, false, none, 2⟩ rfl
    exact ⟨e, he⟩
  · obtain ⟨e, c0, -, he, -⟩ := ledger_audit_entries.2.2 dbWithCount uAdminW 100
      ⟨20, "fix", some "n"⟩ 7
      ((correct_count dbWithCount uAdminW 100 ⟨20, "fix", some "n"⟩ true 7).1)
      ⟨100, 1, 10, 2, 20, 7, 5, false, some "n", 2⟩ rfl
    exact ⟨e, he⟩

/-! ## Claim theorem: upsert-or-correct keeps one row per tuple (C1). -/

/-- A successful submission against a state holding exactly one row for the
payload's tuple corrects that row in place. -/
theorem run_step_corrected (db : DB) (u : AppUser) (p : InventoryCountCreate)
    (now : Nat) (db' : DB) (m : String) (k : CountKey) (c0 : InventoryCount)
    (h : create_count db u p true now = (db', Except.ok m))
    (hk : keyOf p = k)
    (hsingle : countsFor db k = [c0]) :
    countsFor db' k =
      [{ c0 with
          quantity_counted := p.quantity_counted,
          notes := p.notes,
          version := c0.version + 1 }] := by
  subst hk
  obtain ⟨sess, article, hs, hopen, ha, hg, -, hbranch⟩ := create_count_ok_inv h
  have hfind : db.counts.find? (matchesKey (keyOf p)) = some c0 :=
    find?_eq_some_of_filter_cons _ db.counts c0 [] hsingle
  rcases hbranch with ⟨c0', hf, -, hdb'⟩ | ⟨hf, -, -, hdb'⟩
  · rw [hfind] at hf
    injection hf with hf
    subst hf
    subst hdb'
    have hpred := pred_of_filter_single (matchesKey (keyOf p)) db.counts c0 hsingle
    exact filter_replaceFirst_single _ db.counts c0 _ hsingle hpred
  · rw [hfind] at hf
    cases hf

/-- A successful submission against a state holding no row for the
payload's tuple inserts exactly one row at version 1. -/
theorem run_step_created (db : DB) (u : AppUser) (p : InventoryCountCreate)
    (now : Nat) (db' : DB) (m : String) (k : CountKey)
    (h : create_count db u p true now = (db', Except.ok m))
    (hk : keyOf p = k)
    (hempty : countsFor db k = []) :
    countsFor db' k =
      [⟨db.nextCountId, p.session_id, p.article_id, p.round,
        p.quantity_counted, p.counted_by_user_id, now, p.is_new, p.notes, 1⟩] := by
  subst hk
  obtain ⟨sess, article, hs, hopen, ha, hg, -, hbranch⟩ := create_count_ok_inv h
  have hfindn : db.counts.find? (matchesKey (keyOf p)) = none :=
    find?_eq_none_of_filter_eq_nil _ db.counts hempty
  rcases hbranch with ⟨c0, hf, -, hdb'⟩ | ⟨hf, -, arts, hdb'⟩
  · rw [hfindn] at hf
    cases hf
  · subst hdb'
    unfold countsFor at hempty ⊢
    rw [List.filter_append, hempty]
    simp [matchesKey, keyOf]

/-- Invariant step: a run of further submissions for the same tuple keeps
exactly one row and raises its version by the number of submissions; the
last submission's quantity and note win. -/
theorem run_submits_single_aux (u : AppUser) (now : Nat) (k : CountKey) :
    ∀ (ps : List InventoryCountCreate) (db : DB) (c0 : InventoryCount) (db' : DB),
      run_submits u now db ps = some db' →
      (∀ p ∈ ps, keyOf p = k) →
      countsFor db k = [c0] →
      ∃ c, countsFor db' k = [c] ∧ c.version = c0.version + ps.length ∧
        ((ps = [] ∧ c = c0) ∨
         (∃ pl, ps.getLast? = some pl ∧ c.quantity_counted = pl.quantity_counted ∧
           c.notes = pl.notes)) := by
  intro ps
  induction ps with
  | nil =>
    intro db c0 db' hrun _ hsingle
    have hdb : db = db' := by simpa [run_submits] using hrun
    subst hdb
    exact ⟨c0, hsingle, by simp, Or.inl ⟨rfl, rfl⟩⟩
  | cons p rest ih =>
    intro db c0 db' hrun hkeys hsingle
    rw [run_submits] at hrun
    cases hcc : create_count db u p true now with
    | mk db1 res =>
      rw [hcc] at hrun
      cases res with
      | error e => cases hrun
      | ok msg =>
        have hstep := run_step_corrected db u p now db1 msg k c0 hcc
          (hkeys p (by simp)) hsingle
        obtain ⟨c, hc, hv, hlast⟩ :=
          ih db1 _ db' hrun (fun q hq => hkeys q (by simp [hq])) hstep
        refine ⟨c, hc, ?_, ?_⟩
        · rw [hv]; simp; omega
        · rcases hlast with ⟨hrest, hceq⟩ | ⟨pl, hpl, hq, hn⟩
          · subst hrest
            exact Or.inr ⟨p, rfl, by rw [hceq], by rw [hceq]⟩
          · cases rest with
            | nil => cases hpl
            | cons r rs =>
              rw [List.getLast?_cons_cons]
              exact Or.inr ⟨pl, hpl, hq, hn⟩

/-- C1: starting from a state with no Count for a tuple, after any
non-empty sequence of successful `create_count` calls all carrying that
tuple, exactly one Count row exists for it, its version equals the number
of submissions (the first inserted it at version 1, each later one bumped
it in place), and its quantity and note are the last submission's. -/
theorem submitCount_upsert_version (u : AppUser) (now : Nat) (db : DB)
    (ps : List InventoryCountCreate) (k : CountKey) (db' : DB)
    (hrun : run_submits u now db ps = some db')
    (hkeys : ∀ p ∈ ps, keyOf p = k)
    (hinit : countsFor db k = [])
    (hne : ps ≠ []) :
    ∃ c, countsFor db' k = [c] ∧ c.version = ps.length ∧
      ∃ pl, ps.getLast? = some pl ∧ c.quantity_counted = pl.quantity_counted ∧
        c.notes = pl.notes := by
  cases ps with
  | nil => exact absurd rfl hne
  | cons p rest =>
    rw [run_submits] at hrun
    cases hcc : create_count db u p true now with
    | mk db1 res =>
      rw [hcc] at hrun
      cases res with
      | error e => cases hrun
      | ok msg =>
        have hstep := run_step_created db u p now db1 msg k hcc
          (hkeys p (by simp)) hinit
        obtain ⟨c, hc, hv, hlast⟩ :=
          run_submits_single_aux u now k rest db1 _ db' hrun
            (fun q hq => hkeys q (by simp [hq])) hstep
        refine ⟨c, hc, ?_, ?_⟩
        · rw [hv]
          show 1 + rest.length = (p :: rest).length
          simp only [List.length_cons]
          omega
        · rcases hlast with ⟨hrest, hceq⟩ | ⟨pl, hpl, hq, hn⟩
          · subst hrest
            exact ⟨p, rfl, by rw [hceq], by rw [hceq]⟩
          · cases rest with
            | nil => cases hpl
            | cons r rs =>
              rw [List.getLast?_cons_cons]
              exact ⟨pl, hpl, hq, hn⟩

/-- C1 (witness): two submissions (10 then 12 with a note) for the tuple
(session 1, article 10, round 2, counter 7) leave one row at version 2
carrying the last quantity and note. -/
theorem submitCount_upsert_version_witness :
    ∃ c, countsFor ((run_submits uC2W 5 dbW [pW, pW2]).getD dbW) ⟨1, 10, 2, 7⟩ = [c] ∧
      c.version = 2 ∧
      ∃ pl, [pW, pW2].getLast? = some pl ∧
        c.quantity_counted = pl.quantity_counted ∧ c.notes = pl.notes :=
  submitCount_upsert_version uC2W 5 dbW [pW, pW2] ⟨1, 10, 2, 7⟩
    ((run_submits uC2W 5 dbW [pW, pW2]).getD dbW) rfl (by decide) rfl (by decide)

end PDRINV
